/-
Verification of the Speech Acquisition Pipeline
(remotion-test: useSpeechifyTTS / useHiggsAudio hooks and their backend services).

The TypeScript sources are shallowly embedded as Lean definitions:
  * `SpeechifyService.textToSpeech` (src/speechify.ts) and
    `HiggsAudioService.textToSpeech` (src/higgs.ts) become pure functions from
    an HTTP response oracle to `Except String (List Nat)` (error message or
    response-body bytes).
  * each hook's `generateSpeech` becomes a function from an environment
    (the oracle results of the awaited platform calls: the synthesize fetch,
    `decodeAudioData`, the health probe) and a pre-state to the list of
    observable states (one per React setState call, in program order) plus the
    number of outbound synthesize calls made.
  * `FileReader.readAsDataURL` is modelled by its platform specification:
    a `data:<mime>;base64,<base64 of the bytes>` string.
-/
import Mathlib

namespace TTSPipeline

/-! ## Base64 and data URLs (model of `FileReader.readAsDataURL`) -/

/-- The standard base64 alphabet, as used by `btoa`/`readAsDataURL`. -/
def b64Alphabet : List Char :=
  "ABCDEFGHIJKLMNOPQRSTUVWXYZabcdefghijklmnopqrstuvwxyz0123456789+/".toList

/-- The base64 digit for a sextet value `n < 64`. -/
def b64Char (n : Nat) : Char := b64Alphabet.getD n 'A'

/-- The sextet value a base64 digit stands for, if it is one. -/
def b64Index (c : Char) : Option Nat := b64Alphabet.findIdx? (· = c)

/-- Base64 encoding of a byte sequence (bytes as `Nat < 256`), with `=`
padding, exactly as `readAsDataURL` emits it. -/
def base64Encode : List Nat → List Char
  | [] => []
  | [b0] => [b64Char (b0 / 4), b64Char (b0 % 4 * 16), '=', '=']
  | [b0, b1] =>
      [b64Char (b0 / 4), b64Char (b0 % 4 * 16 + b1 / 16), b64Char (b1 % 16 * 4), '=']
  | b0 :: b1 :: b2 :: rest =>
      b64Char (b0 / 4) :: b64Char (b0 % 4 * 16 + b1 / 16) ::
      b64Char (b1 % 16 * 4 + b2 / 64) :: b64Char (b2 % 64) :: base64Encode rest

/-- Base64 decoding (the re-extraction direction of the round-trip claim). -/
def base64Decode : List Char → Option (List Nat)
  | [] => some []
  | c0 :: c1 :: c2 :: c3 :: rest => do
      let n0 ← b64Index c0
      let n1 ← b64Index c1
      if c2 = '=' then
        pure [n0 * 4 + n1 / 16]
      else
        let n2 ← b64Index c2
        if c3 = '=' then
          pure [n0 * 4 + n1 / 16, n1 % 16 * 16 + n2 / 4]
        else
          let n3 ← b64Index c3
          let tail ← base64Decode rest
          pure ((n0 * 4 + n1 / 16) :: (n1 % 16 * 16 + n2 / 4) :: (n2 % 4 * 64 + n3) :: tail)
  | _ => none

/-- `FileReader.readAsDataURL` on a blob of the given mime type and bytes,
per the File API specification. -/
def dataUrl (mime : String) (bytes : List Nat) : String :=
  "data:" ++ mime ++ ";base64," ++ String.mk (base64Encode bytes)

/-- Re-extracting the byte payload of a data URL: skip up to and over the
first comma, then base64-decode the remainder. -/
def extractBytes (url : String) : Option (List Nat) :=
  match url.toList.dropWhile (· ≠ ',') with
  | ',' :: rest => base64Decode rest
  | _ => none

/-! ## HTTP layer -/

/-- A fetch `Response`, restricted to the fields the sources consult. -/
structure HttpResponse where
  status : Nat
  statusText : String
  /-- the body as read by `response.text()` (used for error reporting) -/
  bodyText : String
  /-- the body as read by `response.blob()` (the audio bytes) -/
  bodyBytes : List Nat
deriving DecidableEq

/-- `Response.ok`: status in the inclusive range 200–299 (fetch spec). -/
def HttpResponse.ok (r : HttpResponse) : Bool :=
  200 ≤ r.status && r.status ≤ 299

/-! ## SpeechifyService (src/speechify.ts) -/

/-- The JSON body `{ input, voice_id, language }` sent by
`SpeechifyService.textToSpeech`. -/
structure SpeechifyBody where
  input : String
  voice_id : String
  language : String
deriving DecidableEq

/-- The outbound request `SpeechifyService.textToSpeech` constructs
(method, URL, the three headers, JSON body). -/
structure SpeechifyRequest where
  method : String
  url : String
  authorization : String
  contentType : String
  accept : String
  body : SpeechifyBody
deriving DecidableEq

def speechifyBaseUrl : String := "https://api.sws.speechify.com"

/-- The single request built by `SpeechifyService.textToSpeech`.  Note the
source computes `voiceId || 'default'` and `language || 'en-US'`: the
JavaScript `||` falls back both when the argument is absent and when it is
the (falsy) empty string. -/
def speechifyBuildRequest (apiKey text : String)
    (voiceId language : Option String) : SpeechifyRequest :=
  { method := "POST"
    url := speechifyBaseUrl ++ "/v1/audio/stream"
    authorization := "Bearer " ++ apiKey
    contentType := "application/json"
    accept := "audio/mpeg"
    body :=
      { input := text
        voice_id := match voiceId with
          | some v => if v = "" then "default" else v
          | none => "default"
        language := match language with
          | some l => if l = "" then "en-US" else l
          | none => "en-US" } }

/-- Modelled from the spec (claim C9's wording, for refinement comparison
only): the request with `voice_id = v` (or "default" if `v` is absent) and
`language = l` (or "en-US" if `l` is absent). -/
def speechifySpecRequest (apiKey text : String)
    (voiceId language : Option String) : SpeechifyRequest :=
  { method := "POST"
    url := speechifyBaseUrl ++ "/v1/audio/stream"
    authorization := "Bearer " ++ apiKey
    contentType := "application/json"
    accept := "audio/mpeg"
    body :=
      { input := text
        voice_id := voiceId.getD "default"
        language := language.getD "en-US" } }

/-- Result of `SpeechifyService.textToSpeech` given the outcome of the one
`fetch` it performs: a network failure is rethrown; a non-ok response status
becomes an `Error` whose message carries the status, status text and body
text; an ok response yields the raw body bytes unmodified. -/
def speechifyTextToSpeech (fetched : Except String HttpResponse) :
    Except String (List Nat) :=
  match fetched with
  | .error e => .error e
  | .ok r =>
      if r.ok then .ok r.bodyBytes
      else .error ("Speechify API error: " ++ toString r.status ++ " "
        ++ r.statusText ++ " - " ++ r.bodyText)

/-! ## HiggsAudioService (src/higgs.ts, reproduced in USAGE.md) -/

/-- Result of `HiggsAudioService.textToSpeech` given the outcome of its one
`fetch` against `{baseUrl}/v1/audio/generate`; same shape as the Speechify
variant with its own error-message prefix. -/
def higgsTextToSpeech (fetched : Except String HttpResponse) :
    Except String (List Nat) :=
  match fetched with
  | .error e => .error e
  | .ok r =>
      if r.ok then .ok r.bodyBytes
      else .error ("Higgs Audio API error: " ++ toString r.status ++ " "
        ++ r.statusText ++ " - " ++ r.bodyText)

/-- `HiggsAudioService.checkHealth` given the outcome of its probe fetch:
`response.ok` on a response, `false` on any network error (never throws). -/
def higgsCheckHealth (fetched : Except String HttpResponse) : Bool :=
  match fetched with
  | .error _ => false
  | .ok r => r.ok

/-! ## Pipeline state (the hooks' React state) -/

/-- The spec's `GenerationState` abstraction of the hook state. -/
inductive GenState where
  | idle
  | inFlight
  | ready
  | failed
deriving DecidableEq

/-- The React state of `useSpeechifyTTS`. -/
structure TTSState where
  narrationAudioPath : Option String
  isGenerating : Bool
  speechDuration : ℚ
  error : Option String
deriving DecidableEq, Inhabited

/-- The React state of `useHiggsAudio` (adds `isServerAvailable`). -/
structure HiggsState where
  narrationAudioPath : Option String
  isGenerating : Bool
  speechDuration : ℚ
  error : Option String
  isServerAvailable : Bool
deriving DecidableEq, Inhabited

/-- The hooks' initial state (`useState` initialisers). -/
def TTSState.init : TTSState :=
  { narrationAudioPath := none, isGenerating := false,
    speechDuration := 0, error := none }

/-- The higgs hook's initial state (`useState` initialisers). -/
def HiggsState.init : HiggsState :=
  { narrationAudioPath := none, isGenerating := false,
    speechDuration := 0, error := none, isServerAvailable := false }

/-- The spec's `GenerationState` as observed on the speechify hook state:
`InFlight` while `isGenerating`; otherwise `Failed` when an error is
published, `Ready` when an audio handle is published, else `Idle`. -/
def TTSState.genState (s : TTSState) : GenState :=
  if s.isGenerating then .inFlight
  else if s.error.isSome then .failed
  else if s.narrationAudioPath.isSome then .ready
  else .idle

/-- The spec's `GenerationState` as observed on the higgs hook state. -/
def HiggsState.genState (s : HiggsState) : GenState :=
  if s.isGenerating then .inFlight
  else if s.error.isSome then .failed
  else if s.narrationAudioPath.isSome then .ready
  else .idle

/-! ## useSpeechifyTTS.generateSpeech -/

/-- Environment of one `generateSpeech` run of `useSpeechifyTTS`: the hook's
input text, whether the service ref and audio context are initialised, and
the oracle results of the awaited calls. -/
structure TTSEnv where
  /-- `speechifyServiceRef.current` is non-null -/
  serviceInit : Bool
  /-- the hook's `text` parameter -/
  text : String
  /-- `audioContextRef.current` is non-null -/
  hasAudioContext : Bool
  /-- result of `speechifyServiceRef.current.textToSpeech(...)` -/
  synth : Except String (List Nat)
  /-- result of `audioContextRef.current.decodeAudioData(...)`:
  duration of the decoded buffer, or a decode error -/
  decode : Except String ℚ
  /-- mime type of the returned blob (only feeds the data URL prefix) -/
  mime : String

/-- One run of `useSpeechifyTTS.generateSpeech`, as the list of observable
states in program order (one entry per `set*` call) paired with the number
of outbound `textToSpeech` calls.  Mirrors src/useSpeechifyTTS.ts lines
73–110: the admission guard, `setIsGenerating(true)`, `setError(null)`, the
synthesize call, the decode guarded by the audio context, the
`FileReader` conversion whose `onloadend` publishes the data URL after the
`finally` has already run `setIsGenerating(false)`, and the catch/finally
on error.  The pre-state `s` is the per-render closure snapshot the
invocation observes: `setIsGenerating(true)` does not change the snapshot
of a call already dispatched in the same tick, so concurrent same-tick
invocations are modelled by applying this function twice to the same `s`. -/
def ttsGenerateSpeech (env : TTSEnv) (s : TTSState) :
    List TTSState × Nat :=
  if !env.serviceInit || s.isGenerating || env.text = "" then ([], 0)
  else
    let s1 := { s with isGenerating := true }
    let s2 := { s1 with error := none }
    match env.synth with
    | .error e =>
        let s3 := { s2 with error := some e }
        let s4 := { s3 with isGenerating := false }
        ([s1, s2, s3, s4], 1)
    | .ok bytes =>
        if env.hasAudioContext then
          match env.decode with
          | .error e =>
              let s3 := { s2 with error := some e }
              let s4 := { s3 with isGenerating := false }
              ([s1, s2, s3, s4], 1)
          | .ok d =>
              let s3 := { s2 with speechDuration := d }
              let s4 := { s3 with isGenerating := false }
              let s5 := { s4 with
                narrationAudioPath := some (dataUrl env.mime bytes) }
              ([s1, s2, s3, s4, s5], 1)
        else
          let s4 := { s2 with isGenerating := false }
          let s5 := { s4 with
            narrationAudioPath := some (dataUrl env.mime bytes) }
          ([s1, s2, s4, s5], 1)

/-- Final state of a run (the pre-state when the guard rejected the call). -/
def ttsFinal (env : TTSEnv) (s : TTSState) : TTSState :=
  ((ttsGenerateSpeech env s).1).getLastD s

/-- The auto-generate effect condition of `useSpeechifyTTS` (line 135). -/
def ttsAutoTrigger (autoGenerate serviceInit : Bool) (text : String)
    (s : TTSState) : Bool :=
  autoGenerate && serviceInit && !(text = "")
    && s.narrationAudioPath.isNone && !s.isGenerating

/-! ## useHiggsAudio.generateSpeech -/

/-- Environment of one `generateSpeech` run of `useHiggsAudio`. -/
structure HiggsEnv where
  /-- `higgsServiceRef.current` is non-null -/
  serviceInit : Bool
  /-- the hook's `text` parameter -/
  text : String
  /-- `audioContextRef.current` is non-null -/
  hasAudioContext : Bool
  /-- result of `higgsServiceRef.current.checkHealth()` -/
  health : Bool
  /-- result of `higgsServiceRef.current.textToSpeech(...)` -/
  synth : Except String (List Nat)
  /-- result of `audioContextRef.current.decodeAudioData(...)` -/
  decode : Except String ℚ
  /-- mime type of the returned blob -/
  mime : String

/-- The message of the error thrown when the health probe reports the server
unavailable (src/useHiggsAudio.ts line 90). -/
def higgsUnavailableMsg : String :=
  "Higgs Audio server is not available. Please ensure the local server is running."

/-- One run of `useHiggsAudio.generateSpeech` (src/useHiggsAudio.ts lines
80–127), as observable states plus the number of outbound `textToSpeech`
calls.  Differs from the speechify variant by the leading health probe
(whose failure throws before any synthesize call) and by the catch block
additionally running `setIsServerAvailable(false)`.  As for the speechify
variant, the pre-state `t` is the per-render closure snapshot the
invocation observes. -/
def higgsGenerateSpeech (env : HiggsEnv) (s : HiggsState) :
    List HiggsState × Nat :=
  if !env.serviceInit || s.isGenerating || env.text = "" then ([], 0)
  else
    let s1 := { s with isGenerating := true }
    let s2 := { s1 with error := none }
    if !env.health then
      let s3 := { s2 with error := some higgsUnavailableMsg }
      let s4 := { s3 with isServerAvailable := false }
      let s5 := { s4 with isGenerating := false }
      ([s1, s2, s3, s4, s5], 0)
    else
      let s3 := { s2 with isServerAvailable := true }
      match env.synth with
      | .error e =>
          let s4 := { s3 with error := some e }
          let s5 := { s4 with isServerAvailable := false }
          let s6 := { s5 with isGenerating := false }
          ([s1, s2, s3, s4, s5, s6], 1)
      | .ok bytes =>
          if env.hasAudioContext then
            match env.decode with
            | .error e =>
                let s4 := { s3 with error := some e }
                let s5 := { s4 with isServerAvailable := false }
                let s6 := { s5 with isGenerating := false }
                ([s1, s2, s3, s4, s5, s6], 1)
            | .ok d =>
                let s4 := { s3 with speechDuration := d }
                let s5 := { s4 with isGenerating := false }
                let s6 := { s5 with
                  narrationAudioPath := some (dataUrl env.mime bytes) }
                ([s1, s2, s3, s4, s5, s6], 1)
          else
            let s5 := { s3 with isGenerating := false }
            let s6 := { s5 with
              narrationAudioPath := some (dataUrl env.mime bytes) }
            ([s1, s2, s3, s5, s6], 1)

/-- Final state of a higgs run. -/
def higgsFinal (env : HiggsEnv) (s : HiggsState) : HiggsState :=
  ((higgsGenerateSpeech env s).1).getLastD s

/-- The auto-generate effect condition of `useHiggsAudio` (line 153): unlike
the speechify variant it additionally requires `isServerAvailable`. -/
def higgsAutoTrigger (autoGenerate serviceInit : Bool) (text : String)
    (s : HiggsState) : Bool :=
  autoGenerate && serviceInit && !(text = "")
    && s.narrationAudioPath.isNone && !s.isGenerating && s.isServerAvailable

/-! ## Concrete fixtures used by witnesses and counterexamples -/

/-- A fully successful speechify environment. -/
def okTTSEnv : TTSEnv :=
  { serviceInit := true, text := "Hello, this is a test.",
    hasAudioContext := true, synth := .ok [1, 2, 3], decode := .ok 2,
    mime := "audio/mpeg" }

/-- A fully successful higgs environment. -/
def okHiggsEnv : HiggsEnv :=
  { serviceInit := true, text := "Hello, this is a test.",
    hasAudioContext := true, health := true, synth := .ok [1, 2, 3],
    decode := .ok 2, mime := "audio/wav" }

/-- A speechify environment whose synthesize call fails. -/
def errTTSEnv : TTSEnv := { okTTSEnv with synth := .error "boom" }

/-- A higgs environment whose synthesize call fails. -/
def errHiggsEnv : HiggsEnv := { okHiggsEnv with synth := .error "boom" }

/-- A higgs environment whose health probe reports the server down. -/
def downHiggsEnv : HiggsEnv := { okHiggsEnv with health := false }

/-- The spec's HTTP-500 scenario response (body "model overloaded"). -/
def r500 : HttpResponse :=
  { status := 500, statusText := "Internal Server Error",
    bodyText := "model overloaded", bodyBytes := [] }

/-- A speechify environment whose synthesize call returned the HTTP-500
backend failure. -/
def http500TTSEnv : TTSEnv :=
  { okTTSEnv with synth := speechifyTextToSpeech (.ok r500) }

/-- A higgs environment whose synthesize call returned the HTTP-500
backend failure. -/
def http500HiggsEnv : HiggsEnv :=
  { okHiggsEnv with synth := higgsTextToSpeech (.ok r500) }

/-- A successful (HTTP 200) backend response carrying audio bytes. -/
def r200 : HttpResponse :=
  { status := 200, statusText := "OK", bodyText := "", bodyBytes := [1, 2, 3] }

/-- A speechify hook state left over from an earlier attempt: a published
handle and a stale error. -/
def staleTTSState : TTSState :=
  { narrationAudioPath := some "old", isGenerating := false,
    speechDuration := 0, error := some "old error" }

/-! ## Helper lemmas -/

theorem b64Index_b64Char : ∀ n < 64, b64Index (b64Char n) = some n := by decide

theorem b64Char_ne_pad : ∀ n < 64, b64Char n ≠ '=' := by decide

/-- Base64 decoding is a left inverse of base64 encoding on byte sequences. -/
theorem base64_roundtrip (bs : List Nat) (hbs : ∀ b ∈ bs, b < 256) :
    base64Decode (base64Encode bs) = some bs := by
  induction bs using base64Encode.induct with
  | case1 => rfl
  | case2 b0 =>
      have h0 : b0 < 256 := hbs b0 (by simp)
      simp only [base64Encode, base64Decode,
        b64Index_b64Char _ (by omega : b0 / 4 < 64),
        b64Index_b64Char _ (by omega : b0 % 4 * 16 < 64),
        Option.bind_eq_bind, Option.some_bind, if_true, Option.pure_def,
        Option.some.injEq, List.cons.injEq, and_true]
      omega
  | case3 b0 b1 =>
      have h0 : b0 < 256 := hbs b0 (by simp)
      have h1 : b1 < 256 := hbs b1 (by simp)
      simp only [base64Encode, base64Decode,
        b64Index_b64Char _ (by omega : b0 / 4 < 64),
        b64Index_b64Char _ (by omega : b0 % 4 * 16 + b1 / 16 < 64),
        b64Index_b64Char _ (by omega : b1 % 16 * 4 < 64),
        Option.bind_eq_bind, Option.some_bind,
        if_neg (b64Char_ne_pad _ (by omega : b1 % 16 * 4 < 64)), if_true,
        Option.pure_def, Option.some.injEq, List.cons.injEq, and_true]
      omega
  | case4 b0 b1 b2 rest ih =>
      have h0 : b0 < 256 := hbs b0 (by simp)
      have h1 : b1 < 256 := hbs b1 (by simp)
      have h2 : b2 < 256 := hbs b2 (by simp)
      have hrest : ∀ b ∈ rest, b < 256 := fun b hb => hbs b (by simp [hb])
      simp only [base64Encode, base64Decode,
        b64Index_b64Char _ (by omega : b0 / 4 < 64),
        b64Index_b64Char _ (by omega : b0 % 4 * 16 + b1 / 16 < 64),
        b64Index_b64Char _ (by omega : b1 % 16 * 4 + b2 / 64 < 64),
        b64Index_b64Char _ (by omega : b2 % 64 < 64),
        Option.bind_eq_bind, Option.some_bind,
        if_neg (b64Char_ne_pad _ (by omega : b1 % 16 * 4 + b2 / 64 < 64)),
        if_neg (b64Char_ne_pad _ (by omega : b2 % 64 < 64)),
        ih hrest, Option.pure_def, Option.some.injEq, List.cons.injEq, and_true]
      omega

theorem dropWhile_append_of_all {p : Char → Bool} (l1 l2 : List Char)
    (h : ∀ c ∈ l1, p c = true) : (l1 ++ l2).dropWhile p = l2.dropWhile p := by
  induction l1 with
  | nil => rfl
  | cons a l ih =>
      simp only [List.cons_append, List.dropWhile_cons, h a (by simp), if_true]
      exact ih fun c hc => h c (by simp [hc])

/-- Re-extracting the bytes of a data URL recovers exactly the encoded
bytes, provided the mime type contains no comma. -/
theorem extractBytes_dataUrl (mime : String) (bytes : List Nat)
    (hm : ∀ c ∈ mime.data, c ≠ ',') (hbytes : ∀ b ∈ bytes, b < 256) :
    extractBytes (dataUrl mime bytes) = some bytes := by
  have hsplit : (dataUrl mime bytes).toList
      = ("data:".data ++ mime.data ++ ";base64".data) ++ (',' :: base64Encode bytes) := by
    show (dataUrl mime bytes).data = _
    simp [dataUrl, String.data_append, List.append_assoc]
  have hall : ∀ c ∈ ("data:".data ++ mime.data ++ ";base64".data),
      (c ≠ ',' : Bool) = true := by
    intro c hc
    simp only [List.mem_append] at hc
    rcases hc with hc | hc
    · rcases hc with hc | hc
      · fin_cases hc <;> decide
      · simpa using hm c hc
    · fin_cases hc <;> decide
  unfold extractBytes
  rw [hsplit, dropWhile_append_of_all _ _ hall]
  simp only [List.dropWhile_cons]
  norm_num
  exact base64_roundtrip bytes hbytes

/-! ## Claim theorems -/

/-- C1: for non-empty text, a run in which the synthesize call, the audio
decode, and the byte-to-handle conversion all succeed ends in the Ready
state with a strictly positive speechDuration and a non-null
narrationAudioPath, in either hook. -/
theorem c1_success_publishes_ready
    (envS : TTSEnv) (s : TTSState) (bytes : List Nat) (d : ℚ)
    (envH : HiggsEnv) (t : HiggsState) (bytesH : List Nat) (dH : ℚ)
    (hInit : envS.serviceInit = true) (hGen : s.isGenerating = false)
    (hText : envS.text ≠ "") (hAC : envS.hasAudioContext = true)
    (hSynth : envS.synth = .ok bytes) (hDec : envS.decode = .ok d) (hd : 0 < d)
    (hInitH : envH.serviceInit = true) (hGenH : t.isGenerating = false)
    (hTextH : envH.text ≠ "") (hACH : envH.hasAudioContext = true)
    (hHealth : envH.health = true)
    (hSynthH : envH.synth = .ok bytesH) (hDecH : envH.decode = .ok dH)
    (hdH : 0 < dH) :
    (ttsFinal envS s).genState = .ready
      ∧ 0 < (ttsFinal envS s).speechDuration
      ∧ (ttsFinal envS s).narrationAudioPath ≠ none
      ∧ (higgsFinal envH t).genState = .ready
      ∧ 0 < (higgsFinal envH t).speechDuration
      ∧ (higgsFinal envH t).narrationAudioPath ≠ none := by
  unfold ttsFinal ttsGenerateSpeech higgsFinal higgsGenerateSpeech
  simp [hInit, hGen, hText, hAC, hSynth, hDec, hd, hInitH, hGenH, hTextH,
    hACH, hHealth, hSynthH, hDecH, hdH, TTSState.genState, HiggsState.genState]

/-- C1 witness at a concrete successful environment. -/
theorem c1_witness :
    (ttsFinal okTTSEnv TTSState.init).genState = .ready
      ∧ 0 < (ttsFinal okTTSEnv TTSState.init).speechDuration
      ∧ (ttsFinal okTTSEnv TTSState.init).narrationAudioPath ≠ none
      ∧ (higgsFinal okHiggsEnv HiggsState.init).genState = .ready
      ∧ 0 < (higgsFinal okHiggsEnv HiggsState.init).speechDuration
      ∧ (higgsFinal okHiggsEnv HiggsState.init).narrationAudioPath ≠ none :=
  c1_success_publishes_ready okTTSEnv TTSState.init [1, 2, 3] 2
    okHiggsEnv HiggsState.init [1, 2, 3] 2 rfl rfl (by decide) rfl rfl rfl
    (by decide) rfl rfl (by decide) rfl rfl rfl rfl (by decide)

/-- C2 counterexample: during the first successful generation the
DurationEstimate is published (speechDuration = 2) at an observable point
where the PlaybackHandle is still null. -/
theorem c2_counterexample :
    ((ttsGenerateSpeech okTTSEnv TTSState.init).1.getD 2 default).speechDuration ≠ 0
    ∧ ((ttsGenerateSpeech okTTSEnv TTSState.init).1.getD 2 default).narrationAudioPath
        = none := by decide

/-- C2 amended: the pairing holds in one direction only — at every
observable point of a successful generation from a fresh instance the
handle is set only if the duration is, the final state publishes both,
but there are intermediate observable points with the duration published
and no handle (the duration is published first). -/
theorem c2_amended
    (envS : TTSEnv) (bytes : List Nat) (d : ℚ)
    (envH : HiggsEnv) (bytesH : List Nat) (dH : ℚ)
    (hInit : envS.serviceInit = true) (hText : envS.text ≠ "")
    (hAC : envS.hasAudioContext = true)
    (hSynth : envS.synth = .ok bytes) (hDec : envS.decode = .ok d) (hd : 0 < d)
    (hInitH : envH.serviceInit = true) (hTextH : envH.text ≠ "")
    (hACH : envH.hasAudioContext = true) (hHealth : envH.health = true)
    (hSynthH : envH.synth = .ok bytesH) (hDecH : envH.decode = .ok dH)
    (hdH : 0 < dH) :
    (∀ u ∈ (ttsGenerateSpeech envS TTSState.init).1,
        u.narrationAudioPath.isSome → 0 < u.speechDuration)
    ∧ 0 < (ttsFinal envS TTSState.init).speechDuration
    ∧ (ttsFinal envS TTSState.init).narrationAudioPath.isSome
    ∧ (∃ u ∈ (ttsGenerateSpeech envS TTSState.init).1,
        0 < u.speechDuration ∧ u.narrationAudioPath = none)
    ∧ (∀ u ∈ (higgsGenerateSpeech envH HiggsState.init).1,
        u.narrationAudioPath.isSome → 0 < u.speechDuration)
    ∧ 0 < (higgsFinal envH HiggsState.init).speechDuration
    ∧ (higgsFinal envH HiggsState.init).narrationAudioPath.isSome
    ∧ (∃ u ∈ (higgsGenerateSpeech envH HiggsState.init).1,
        0 < u.speechDuration ∧ u.narrationAudioPath = none) := by
  unfold ttsFinal ttsGenerateSpeech higgsFinal higgsGenerateSpeech
  simp [hInit, hText, hAC, hSynth, hDec, hd, hInitH, hTextH, hACH, hHealth,
    hSynthH, hDecH, hdH, TTSState.init, HiggsState.init]

/-- C2 witness at concrete successful environments. -/
theorem c2_witness :
    (∀ u ∈ (ttsGenerateSpeech okTTSEnv TTSState.init).1,
        u.narrationAudioPath.isSome → 0 < u.speechDuration)
    ∧ 0 < (ttsFinal okTTSEnv TTSState.init).speechDuration
    ∧ (ttsFinal okTTSEnv TTSState.init).narrationAudioPath.isSome
    ∧ (∃ u ∈ (ttsGenerateSpeech okTTSEnv TTSState.init).1,
        0 < u.speechDuration ∧ u.narrationAudioPath = none)
    ∧ (∀ u ∈ (higgsGenerateSpeech okHiggsEnv HiggsState.init).1,
        u.narrationAudioPath.isSome → 0 < u.speechDuration)
    ∧ 0 < (higgsFinal okHiggsEnv HiggsState.init).speechDuration
    ∧ (higgsFinal okHiggsEnv HiggsState.init).narrationAudioPath.isSome
    ∧ (∃ u ∈ (higgsGenerateSpeech okHiggsEnv HiggsState.init).1,
        0 < u.speechDuration ∧ u.narrationAudioPath = none) :=
  c2_amended okTTSEnv [1, 2, 3] 2 okHiggsEnv [1, 2, 3] 2
    rfl (by decide) rfl rfl rfl (by decide)
    rfl (by decide) rfl rfl rfl rfl (by decide)

/-- C3: a backend response with status ≥ 400 makes `textToSpeech` fail with
an error message carrying the status code and the response body text, and a
pipeline run whose synthesize call returns that failure ends in the Failed
state publishing that message — for both backends. -/
theorem c3_backend_error_fails_pipeline
    (r : HttpResponse) (hr : 400 ≤ r.status)
    (envS : TTSEnv) (s : TTSState)
    (hInit : envS.serviceInit = true) (hGen : s.isGenerating = false)
    (hText : envS.text ≠ "")
    (hSynth : envS.synth = speechifyTextToSpeech (.ok r))
    (envH : HiggsEnv) (t : HiggsState)
    (hInitH : envH.serviceInit = true) (hGenH : t.isGenerating = false)
    (hTextH : envH.text ≠ "") (hHealth : envH.health = true)
    (hSynthH : envH.synth = higgsTextToSpeech (.ok r)) :
    (∃ m, speechifyTextToSpeech (.ok r) = .error m
       ∧ (∃ a b, m = a ++ toString r.status ++ b)
       ∧ (∃ a b, m = a ++ r.bodyText ++ b)
       ∧ (ttsFinal envS s).genState = .failed
       ∧ (ttsFinal envS s).error = some m)
    ∧ (∃ m, higgsTextToSpeech (.ok r) = .error m
       ∧ (∃ a b, m = a ++ toString r.status ++ b)
       ∧ (∃ a b, m = a ++ r.bodyText ++ b)
       ∧ (higgsFinal envH t).genState = .failed
       ∧ (higgsFinal envH t).error = some m) := by
  have hok : r.ok = false := by
    simp only [HttpResponse.ok, Bool.and_eq_false_iff, decide_eq_false_iff_not]
    omega
  constructor
  · refine ⟨"Speechify API error: " ++ toString r.status ++ " " ++ r.statusText
        ++ " - " ++ r.bodyText, by simp [speechifyTextToSpeech, hok], ?_, ?_, ?_, ?_⟩
    · exact ⟨"Speechify API error: ", " " ++ r.statusText ++ " - " ++ r.bodyText,
        by simp [String.append_assoc]⟩
    · exact ⟨"Speechify API error: " ++ toString r.status ++ " " ++ r.statusText ++ " - ",
        "", by simp [String.append_assoc, String.append_empty]⟩
    · unfold ttsFinal ttsGenerateSpeech
      simp [hInit, hGen, hText, hSynth, speechifyTextToSpeech, hok,
        TTSState.genState]
    · unfold ttsFinal ttsGenerateSpeech
      simp [hInit, hGen, hText, hSynth, speechifyTextToSpeech, hok]
  · refine ⟨"Higgs Audio API error: " ++ toString r.status ++ " " ++ r.statusText
        ++ " - " ++ r.bodyText, by simp [higgsTextToSpeech, hok], ?_, ?_, ?_, ?_⟩
    · exact ⟨"Higgs Audio API error: ", " " ++ r.statusText ++ " - " ++ r.bodyText,
        by simp [String.append_assoc]⟩
    · exact ⟨"Higgs Audio API error: " ++ toString r.status ++ " " ++ r.statusText ++ " - ",
        "", by simp [String.append_assoc, String.append_empty]⟩
    · unfold higgsFinal higgsGenerateSpeech
      simp [hInitH, hGenH, hTextH, hHealth, hSynthH, higgsTextToSpeech, hok,
        HiggsState.genState]
    · unfold higgsFinal higgsGenerateSpeech
      simp [hInitH, hGenH, hTextH, hHealth, hSynthH, higgsTextToSpeech, hok]

/-- C3 witness: the HTTP-500 "model overloaded" scenario. -/
theorem c3_witness :
    (∃ m, speechifyTextToSpeech (.ok r500) = .error m
       ∧ (∃ a b, m = a ++ toString r500.status ++ b)
       ∧ (∃ a b, m = a ++ r500.bodyText ++ b)
       ∧ (ttsFinal http500TTSEnv TTSState.init).genState = .failed
       ∧ (ttsFinal http500TTSEnv TTSState.init).error = some m)
    ∧ (∃ m, higgsTextToSpeech (.ok r500) = .error m
       ∧ (∃ a b, m = a ++ toString r500.status ++ b)
       ∧ (∃ a b, m = a ++ r500.bodyText ++ b)
       ∧ (higgsFinal http500HiggsEnv HiggsState.init).genState = .failed
       ∧ (higgsFinal http500HiggsEnv HiggsState.init).error = some m) :=
  c3_backend_error_fails_pipeline r500 (by decide)
    http500TTSEnv TTSState.init rfl rfl (by decide) rfl
    http500HiggsEnv HiggsState.init rfl rfl (by decide) rfl rfl

/-- C4 counterexample: the admission guard reads the per-render closure
snapshot of `isGenerating`, which `setIsGenerating(true)` does not update
until a re-render — so two rapid trigger calls in the same tick both
observe the same fresh snapshot, both pass the guard, and together issue
two outbound synthesize calls, not one.  Holds for both hooks. -/
theorem c4_counterexample :
    (ttsGenerateSpeech okTTSEnv TTSState.init).2
      + (ttsGenerateSpeech okTTSEnv TTSState.init).2 = 2
    ∧ (higgsGenerateSpeech okHiggsEnv HiggsState.init).2
      + (higgsGenerateSpeech okHiggsEnv HiggsState.init).2 = 2 := by
  decide

/-- C4 amended: admission control holds only at the granularity of the
rendered state snapshot a call observes.  A guard-passing call makes
exactly one synthesize call and its first published state is already
`isGenerating`; a call whose observed snapshot is in flight, has empty
text, or has an uninitialised service is a complete no-op with no
synthesize call — so a second trigger that observes the re-rendered
in-flight state adds no call and the total stays one; but two rapid calls
in the same tick both observe the same pre-flight snapshot and together
make two synthesize calls.  Covers both hooks. -/
theorem c4_amended
    (envS envS2 : TTSEnv) (s : TTSState)
    (envH envH2 : HiggsEnv) (t : HiggsState)
    (hInit : envS.serviceInit = true) (hGen : s.isGenerating = false)
    (hText : envS.text ≠ "")
    (hInitH : envH.serviceInit = true) (hGenH : t.isGenerating = false)
    (hTextH : envH.text ≠ "") (hHealth : envH.health = true) :
    (ttsGenerateSpeech envS s).2 = 1
    ∧ (ttsGenerateSpeech envS s).1.head? = some { s with isGenerating := true }
    ∧ (ttsGenerateSpeech envS s).2
        + (ttsGenerateSpeech envS2 { s with isGenerating := true }).2 = 1
    ∧ (ttsGenerateSpeech envS s).2 + (ttsGenerateSpeech envS s).2 = 2
    ∧ (higgsGenerateSpeech envH t).2 = 1
    ∧ (higgsGenerateSpeech envH t).1.head? = some { t with isGenerating := true }
    ∧ (higgsGenerateSpeech envH t).2
        + (higgsGenerateSpeech envH2 { t with isGenerating := true }).2 = 1
    ∧ (higgsGenerateSpeech envH t).2 + (higgsGenerateSpeech envH t).2 = 2
    ∧ (∀ (env' : TTSEnv) (u : TTSState), u.isGenerating = true →
        ttsGenerateSpeech env' u = ([], 0))
    ∧ (∀ (env' : TTSEnv) (u : TTSState), env'.text = "" →
        ttsGenerateSpeech env' u = ([], 0))
    ∧ (∀ (env' : TTSEnv) (u : TTSState), env'.serviceInit = false →
        ttsGenerateSpeech env' u = ([], 0))
    ∧ (∀ (env' : HiggsEnv) (u : HiggsState), u.isGenerating = true →
        higgsGenerateSpeech env' u = ([], 0))
    ∧ (∀ (env' : HiggsEnv) (u : HiggsState), env'.text = "" →
        higgsGenerateSpeech env' u = ([], 0))
    ∧ (∀ (env' : HiggsEnv) (u : HiggsState), env'.serviceInit = false →
        higgsGenerateSpeech env' u = ([], 0)) := by
  have hS1 : (ttsGenerateSpeech envS s).2 = 1 := by
    unfold ttsGenerateSpeech
    rcases hs : envS.synth with e | bytes
      <;> rcases hd : envS.decode with e2 | d2
      <;> rcases hac : envS.hasAudioContext
      <;> simp [hInit, hGen, hText, hs, hd, hac]
  have hS2 : (ttsGenerateSpeech envS s).1.head?
      = some { s with isGenerating := true } := by
    unfold ttsGenerateSpeech
    rcases hs : envS.synth with e | bytes
      <;> rcases hd : envS.decode with e2 | d2
      <;> rcases hac : envS.hasAudioContext
      <;> simp [hInit, hGen, hText, hs, hd, hac]
  have hH1 : (higgsGenerateSpeech envH t).2 = 1 := by
    unfold higgsGenerateSpeech
    rcases hs : envH.synth with e | bytes
      <;> rcases hd : envH.decode with e2 | d2
      <;> rcases hac : envH.hasAudioContext
      <;> simp [hInitH, hGenH, hTextH, hHealth, hs, hd, hac]
  have hH2 : (higgsGenerateSpeech envH t).1.head?
      = some { t with isGenerating := true } := by
    unfold higgsGenerateSpeech
    rcases hs : envH.synth with e | bytes
      <;> rcases hd : envH.decode with e2 | d2
      <;> rcases hac : envH.hasAudioContext
      <;> simp [hInitH, hGenH, hTextH, hHealth, hs, hd, hac]
  have hSno : ∀ (env' : TTSEnv) (u : TTSState), u.isGenerating = true →
      ttsGenerateSpeech env' u = ([], 0) := by
    intro env' u hu
    unfold ttsGenerateSpeech
    simp [hu]
  have hHno : ∀ (env' : HiggsEnv) (u : HiggsState), u.isGenerating = true →
      higgsGenerateSpeech env' u = ([], 0) := by
    intro env' u hu
    unfold higgsGenerateSpeech
    simp [hu]
  refine ⟨hS1, hS2, ?_, ?_, hH1, hH2, ?_, ?_, hSno, ?_, ?_, hHno, ?_, ?_⟩
  · rw [hS1, hSno envS2 _ rfl]
    rfl
  · rw [hS1]
  · rw [hH1, hHno envH2 _ rfl]
    rfl
  · rw [hH1]
  · intro env' u hu
    unfold ttsGenerateSpeech
    simp [hu]
  · intro env' u hu
    unfold ttsGenerateSpeech
    simp [hu]
  · intro env' u hu
    unfold higgsGenerateSpeech
    simp [hu]
  · intro env' u hu
    unfold higgsGenerateSpeech
    simp [hu]

/-- C4 witness at concrete environments. -/
theorem c4_witness :
    (ttsGenerateSpeech okTTSEnv TTSState.init).2 = 1
    ∧ (ttsGenerateSpeech okTTSEnv TTSState.init).1.head?
        = some { TTSState.init with isGenerating := true }
    ∧ (ttsGenerateSpeech okTTSEnv TTSState.init).2
        + (ttsGenerateSpeech okTTSEnv { TTSState.init with isGenerating := true }).2 = 1
    ∧ (ttsGenerateSpeech okTTSEnv TTSState.init).2
        + (ttsGenerateSpeech okTTSEnv TTSState.init).2 = 2
    ∧ (higgsGenerateSpeech okHiggsEnv HiggsState.init).2 = 1
    ∧ (higgsGenerateSpeech okHiggsEnv HiggsState.init).1.head?
        = some { HiggsState.init with isGenerating := true }
    ∧ (higgsGenerateSpeech okHiggsEnv HiggsState.init).2
        + (higgsGenerateSpeech okHiggsEnv { HiggsState.init with isGenerating := true }).2 = 1
    ∧ (higgsGenerateSpeech okHiggsEnv HiggsState.init).2
        + (higgsGenerateSpeech okHiggsEnv HiggsState.init).2 = 2
    ∧ (∀ (env' : TTSEnv) (u : TTSState), u.isGenerating = true →
        ttsGenerateSpeech env' u = ([], 0))
    ∧ (∀ (env' : TTSEnv) (u : TTSState), env'.text = "" →
        ttsGenerateSpeech env' u = ([], 0))
    ∧ (∀ (env' : TTSEnv) (u : TTSState), env'.serviceInit = false →
        ttsGenerateSpeech env' u = ([], 0))
    ∧ (∀ (env' : HiggsEnv) (u : HiggsState), u.isGenerating = true →
        higgsGenerateSpeech env' u = ([], 0))
    ∧ (∀ (env' : HiggsEnv) (u : HiggsState), env'.text = "" →
        higgsGenerateSpeech env' u = ([], 0))
    ∧ (∀ (env' : HiggsEnv) (u : HiggsState), env'.serviceInit = false →
        higgsGenerateSpeech env' u = ([], 0)) :=
  c4_amended okTTSEnv okTTSEnv TTSState.init
    okHiggsEnv okHiggsEnv HiggsState.init
    rfl rfl (by decide) rfl rfl (by decide) rfl

/-- C5: in the local-backend pipeline, a run whose health probe reports the
server unavailable makes no synthesize call and ends Failed with the
server-unavailable error, whose message contains "not available". -/
theorem c5_health_false_no_synth
    (env : HiggsEnv) (t : HiggsState)
    (hInit : env.serviceInit = true) (hGen : t.isGenerating = false)
    (hText : env.text ≠ "") (hHealth : env.health = false) :
    (higgsGenerateSpeech env t).2 = 0
    ∧ (higgsFinal env t).genState = .failed
    ∧ (higgsFinal env t).error = some higgsUnavailableMsg
    ∧ ∃ a b, higgsUnavailableMsg = a ++ "not available" ++ b := by
  refine ⟨?_, ?_, ?_, "Higgs Audio server is ",
    ". Please ensure the local server is running.", by decide⟩
  · unfold higgsGenerateSpeech
    simp [hInit, hGen, hText, hHealth]
  · unfold higgsFinal higgsGenerateSpeech
    simp [hInit, hGen, hText, hHealth, HiggsState.genState]
  · unfold higgsFinal higgsGenerateSpeech
    simp [hInit, hGen, hText, hHealth]

/-- C5 witness at a concrete unavailable-server environment. -/
theorem c5_witness :
    (higgsGenerateSpeech downHiggsEnv HiggsState.init).2 = 0
    ∧ (higgsFinal downHiggsEnv HiggsState.init).genState = .failed
    ∧ (higgsFinal downHiggsEnv HiggsState.init).error = some higgsUnavailableMsg
    ∧ ∃ a b, higgsUnavailableMsg = a ++ "not available" ++ b :=
  c5_health_false_no_synth downHiggsEnv HiggsState.init rfl rfl (by decide) rfl

/-- C6 counterexample: starting from a state with a previously published
handle, both observable states preceding the backend call still carry the
old handle — entry to InFlight clears the error but not the PlaybackHandle. -/
theorem c6_counterexample :
    ((ttsGenerateSpeech okTTSEnv staleTTSState).1.getD 0 default).narrationAudioPath
        = some "old"
    ∧ ((ttsGenerateSpeech okTTSEnv staleTTSState).1.getD 1 default).narrationAudioPath
        = some "old"
    ∧ ((ttsGenerateSpeech okTTSEnv staleTTSState).1.getD 1 default).error = none := by
  decide

/-- C6 amended: on entry to InFlight (the observable states before any
backend call) the prior error is cleared but the prior PlaybackHandle is
left unchanged, in both hooks. -/
theorem c6_amended
    (envS : TTSEnv) (s : TTSState) (envH : HiggsEnv) (t : HiggsState)
    (hInit : envS.serviceInit = true) (hGen : s.isGenerating = false)
    (hText : envS.text ≠ "")
    (hInitH : envH.serviceInit = true) (hGenH : t.isGenerating = false)
    (hTextH : envH.text ≠ "") :
    (ttsGenerateSpeech envS s).1.head? = some { s with isGenerating := true }
    ∧ (ttsGenerateSpeech envS s).1[1]?
        = some { s with isGenerating := true, error := none }
    ∧ (higgsGenerateSpeech envH t).1.head? = some { t with isGenerating := true }
    ∧ (higgsGenerateSpeech envH t).1[1]?
        = some { t with isGenerating := true, error := none } := by
  refine ⟨?_, ?_, ?_, ?_⟩ <;>
    [unfold ttsGenerateSpeech; unfold ttsGenerateSpeech;
     unfold higgsGenerateSpeech; unfold higgsGenerateSpeech] <;>
    [skip; skip; skip; skip]
  · rcases hs : envS.synth with e | bytes
      <;> rcases hd : envS.decode with e2 | d2
      <;> rcases hac : envS.hasAudioContext
      <;> simp [hInit, hGen, hText, hs, hd, hac]
  · rcases hs : envS.synth with e | bytes
      <;> rcases hd : envS.decode with e2 | d2
      <;> rcases hac : envS.hasAudioContext
      <;> simp [hInit, hGen, hText, hs, hd, hac]
  · rcases hs : envH.synth with e | bytes
      <;> rcases hd : envH.decode with e2 | d2
      <;> rcases hac : envH.hasAudioContext
      <;> rcases hh : envH.health
      <;> simp [hInitH, hGenH, hTextH, hs, hd, hac, hh]
  · rcases hs : envH.synth with e | bytes
      <;> rcases hd : envH.decode with e2 | d2
      <;> rcases hac : envH.hasAudioContext
      <;> rcases hh : envH.health
      <;> simp [hInitH, hGenH, hTextH, hs, hd, hac, hh]

/-- C6 witness at a concrete stale state. -/
theorem c6_witness :
    (ttsGenerateSpeech okTTSEnv staleTTSState).1.head?
        = some { staleTTSState with isGenerating := true }
    ∧ (ttsGenerateSpeech okTTSEnv staleTTSState).1[1]?
        = some { staleTTSState with isGenerating := true, error := none }
    ∧ (higgsGenerateSpeech okHiggsEnv HiggsState.init).1.head?
        = some { HiggsState.init with isGenerating := true }
    ∧ (higgsGenerateSpeech okHiggsEnv HiggsState.init).1[1]?
        = some { HiggsState.init with isGenerating := true, error := none } :=
  c6_amended okTTSEnv staleTTSState okHiggsEnv HiggsState.init
    rfl rfl (by decide) rfl rfl (by decide)

/-- C7 counterexample: a failed re-trigger after an earlier successful
generation ends in the Failed state with the old positive speechDuration
still published — the duration is not 0 in the Failed state. -/
theorem c7_counterexample :
    (ttsFinal errTTSEnv (ttsFinal okTTSEnv TTSState.init)).genState
        = GenState.failed
    ∧ (ttsFinal errTTSEnv (ttsFinal okTTSEnv TTSState.init)).speechDuration ≠ 0 := by
  decide

/-- C7 amended: speechDuration only ever changes to the duration of a
successful decode and stays non-negative when the decoder yields
non-negative durations; it is never reset, so it retains its previous
value (possibly non-zero) in InFlight and Failed states of later attempts. -/
theorem c7_amended (env : TTSEnv) (s : TTSState)
    (h0 : 0 ≤ s.speechDuration)
    (hdec : ∀ d, env.decode = .ok d → 0 ≤ d) :
    ∀ u ∈ (ttsGenerateSpeech env s).1,
      (u.speechDuration = s.speechDuration ∨ env.decode = .ok u.speechDuration)
      ∧ 0 ≤ u.speechDuration := by
  by_cases ht : env.text = ""
  · unfold ttsGenerateSpeech
    simp [ht]
  · unfold ttsGenerateSpeech
    rcases hs : env.synth with e | bytes
      <;> rcases hd : env.decode with e2 | d2
      <;> rcases hac : env.hasAudioContext
      <;> rcases hg : s.isGenerating
      <;> rcases hsi : env.serviceInit
      <;> simp [hs, hd, hac, hg, hsi, ht, h0]
      <;> simp [hdec _ hd]

/-- C7 witness at a concrete successful environment and observable state. -/
theorem c7_witness :
    (((ttsGenerateSpeech okTTSEnv TTSState.init).1.getD 2 default).speechDuration
        = TTSState.init.speechDuration
      ∨ okTTSEnv.decode
        = .ok ((ttsGenerateSpeech okTTSEnv TTSState.init).1.getD 2 default).speechDuration)
    ∧ 0 ≤ ((ttsGenerateSpeech okTTSEnv TTSState.init).1.getD 2 default).speechDuration :=
  c7_amended okTTSEnv TTSState.init (by decide)
    (fun d h => by
      simp only [okTTSEnv] at h
      cases h
      decide)
    ((ttsGenerateSpeech okTTSEnv TTSState.init).1.getD 2 default)
    (by decide)

/-- C8: a successful run publishes as its PlaybackHandle exactly the data
URL embedding of the backend's bytes, and re-extracting the bytes from that
handle yields the original byte sequence — for both hooks. -/
theorem c8_handle_roundtrip
    (envS : TTSEnv) (s : TTSState) (bytes : List Nat) (d : ℚ)
    (envH : HiggsEnv) (t : HiggsState) (bytesH : List Nat) (dH : ℚ)
    (hInit : envS.serviceInit = true) (hGen : s.isGenerating = false)
    (hText : envS.text ≠ "") (hAC : envS.hasAudioContext = true)
    (hSynth : envS.synth = .ok bytes) (hDec : envS.decode = .ok d)
    (hbytes : ∀ b ∈ bytes, b < 256) (hmime : ∀ c ∈ envS.mime.data, c ≠ ',')
    (hInitH : envH.serviceInit = true) (hGenH : t.isGenerating = false)
    (hTextH : envH.text ≠ "") (hACH : envH.hasAudioContext = true)
    (hHealth : envH.health = true)
    (hSynthH : envH.synth = .ok bytesH) (hDecH : envH.decode = .ok dH)
    (hbytesH : ∀ b ∈ bytesH, b < 256)
    (hmimeH : ∀ c ∈ envH.mime.data, c ≠ ',') :
    (ttsFinal envS s).narrationAudioPath = some (dataUrl envS.mime bytes)
    ∧ extractBytes (dataUrl envS.mime bytes) = some bytes
    ∧ (higgsFinal envH t).narrationAudioPath = some (dataUrl envH.mime bytesH)
    ∧ extractBytes (dataUrl envH.mime bytesH) = some bytesH := by
  refine ⟨?_, extractBytes_dataUrl _ _ hmime hbytes, ?_,
    extractBytes_dataUrl _ _ hmimeH hbytesH⟩
  · unfold ttsFinal ttsGenerateSpeech
    simp [hInit, hGen, hText, hAC, hSynth, hDec]
  · unfold higgsFinal higgsGenerateSpeech
    simp [hInitH, hGenH, hTextH, hACH, hHealth, hSynthH, hDecH]

/-- C8 witness at concrete environments and bytes. -/
theorem c8_witness :
    (ttsFinal okTTSEnv TTSState.init).narrationAudioPath
        = some (dataUrl okTTSEnv.mime [1, 2, 3])
    ∧ extractBytes (dataUrl okTTSEnv.mime [1, 2, 3]) = some [1, 2, 3]
    ∧ (higgsFinal okHiggsEnv HiggsState.init).narrationAudioPath
        = some (dataUrl okHiggsEnv.mime [1, 2, 3])
    ∧ extractBytes (dataUrl okHiggsEnv.mime [1, 2, 3]) = some [1, 2, 3] :=
  c8_handle_roundtrip okTTSEnv TTSState.init [1, 2, 3] 2
    okHiggsEnv HiggsState.init [1, 2, 3] 2
    rfl rfl (by decide) rfl rfl rfl (by decide) (by decide)
    rfl rfl (by decide) rfl rfl rfl rfl (by decide) (by decide)

/-- C9 counterexample: with a present but empty voice id, the constructed
request body carries "default" rather than the given voice id — the
JavaScript fallback `voiceId || 'default'` also fires on the empty string. -/
theorem c9_counterexample :
    speechifyBuildRequest "key" "hello" (some "") (some "fr")
      ≠ speechifySpecRequest "key" "hello" (some "") (some "fr") := by
  decide

/-- C9 amended: for every input, exactly one request is constructed, as
POST {base}/v1/audio/stream with bearer authorization, Accept audio/mpeg
and JSON body input/voice_id/language — equal to the request the claim
describes with a present-but-EMPTY voice id or language treated like an
absent one (the JavaScript || fallback yields "default"/"en-US" in both
cases) — and a 2xx response returns the raw body bytes unmodified. -/
theorem c9_amended (apiKey text : String) (voiceId language : Option String)
    (r : HttpResponse) (hok : r.ok = true) :
    speechifyBuildRequest apiKey text voiceId language
      = speechifySpecRequest apiKey text
          (if voiceId = some "" then none else voiceId)
          (if language = some "" then none else language)
    ∧ speechifyTextToSpeech (.ok r) = .ok r.bodyBytes := by
  constructor
  · unfold speechifyBuildRequest speechifySpecRequest
    rcases voiceId with _ | v <;> rcases language with _ | l
    · rfl
    · by_cases hl : l = "" <;> simp [hl]
    · by_cases hv : v = "" <;> simp [hv]
    · by_cases hv : v = "" <;> by_cases hl : l = "" <;> simp [hv, hl]
  · simp [speechifyTextToSpeech, hok]

/-- C9 witness at the empty-string voice id and language (exercising the
fallback the amendment asserts) and an ok response. -/
theorem c9_witness :
    speechifyBuildRequest "key" "hello" (some "") (some "")
      = speechifySpecRequest "key" "hello"
          (if (some "" : Option String) = some "" then none else some "")
          (if (some "" : Option String) = some "" then none else some "")
    ∧ speechifyTextToSpeech (.ok r200) = .ok r200.bodyBytes :=
  c9_amended "key" "hello" (some "") (some "") r200 (by decide)

/-- C10: in the local-backend pipeline, any failure after a successful
health probe — a synthesize failure or a decode failure — leaves
isServerAvailable false, which falsifies the auto-trigger condition for
every configuration. -/
theorem c10_failure_disables_auto_trigger (env : HiggsEnv) (t : HiggsState)
    (hInit : env.serviceInit = true) (hGen : t.isGenerating = false)
    (hText : env.text ≠ "") (hHealth : env.health = true)
    (hFail : (∃ e, env.synth = .error e)
      ∨ (env.hasAudioContext = true ∧ ∃ e, env.decode = .error e)) :
    (higgsFinal env t).isServerAvailable = false
    ∧ ∀ (a si : Bool) (txt : String),
        higgsAutoTrigger a si txt (higgsFinal env t) = false := by
  have hfin : (higgsFinal env t).isServerAvailable = false := by
    rcases hFail with ⟨e, he⟩ | ⟨hac, e, he⟩
    · unfold higgsFinal higgsGenerateSpeech
      simp [hInit, hGen, hText, hHealth, he]
    · rcases hs : env.synth with e2 | bytes
      · unfold higgsFinal higgsGenerateSpeech
        simp [hInit, hGen, hText, hHealth, hs]
      · unfold higgsFinal higgsGenerateSpeech
        simp [hInit, hGen, hText, hHealth, hs, hac, he]
  refine ⟨hfin, fun a si txt => ?_⟩
  unfold higgsAutoTrigger
  simp [hfin]

/-- C10 witness at a concrete post-health synthesize failure. -/
theorem c10_witness :
    (higgsFinal errHiggsEnv HiggsState.init).isServerAvailable = false
    ∧ ∀ (a si : Bool) (txt : String),
        higgsAutoTrigger a si txt (higgsFinal errHiggsEnv HiggsState.init)
          = false :=
  c10_failure_disables_auto_trigger errHiggsEnv HiggsState.init
    rfl rfl (by decide) rfl (Or.inl ⟨"boom", rfl⟩)

end TTSPipeline
